import Mathlib

/-!
Shallow embedding of the wqh11144/youtube-live task lifecycle orchestrator
(Python, FastAPI) and proofs about it.

Python dictionaries with string keys are modelled as association lists in
insertion order (`alGet` finds the first binding, `alSet` replaces the first
binding in place or appends, matching CPython dict semantics when keys are
unique, which CPython guarantees).  Task records (JSON objects) are modelled
as `Dict := List (String × String)`; numeric field values are stored via
`toString`.  Processes are modelled by their pid (`Nat`) together with the
result of `poll()` (`Option Int`, `none` while running).
-/

namespace YTLive

/-- First value bound to key `k`, mirroring Python `d[k]` / `d.get(k)`. -/
def alGet {β : Type} : List (String × β) → String → Option β
  | [], _ => none
  | (k', v) :: rest, k => if k' = k then some v else alGet rest k

/-- Python `d[k] = v`: replace the first binding of `k` in place, else append. -/
def alSet {β : Type} : List (String × β) → String → β → List (String × β)
  | [], k, v => [(k, v)]
  | (k', v') :: rest, k, v =>
      if k' = k then (k, v) :: rest else (k', v') :: alSet rest k v

/-- Python `del d[k]`: drop the first binding of `k`. -/
def alRemove {β : Type} : List (String × β) → String → List (String × β)
  | [], _ => []
  | (k', v') :: rest, k => if k' = k then rest else (k', v') :: alRemove rest k

/-- A Python dict with string keys and string values (one JSON task record). -/
abbrev Dict := List (String × String)

/-- Python `d.update(u)` (`task_service.py` lines 188 and 236): iterate the
items of `u` in order, writing each into `d`. -/
def dictUpdate (d u : Dict) : Dict :=
  u.foldl (fun acc p => alSet acc p.1 p.2) d

/-! ## Task Store (`app/services/task_service.py`)

`save_tasks` reads the day file, builds
`existing_task_map = {task['id']: task for task in existing_tasks if 'id' in task}`,
merges the incoming list into it (`dict.update` for an existing id, insert for
a new id, skip records without an id), sorts the values by `start_time`
descending and writes them back. -/

/-- A Python dict keyed by task id whose values are task records. -/
abbrev TaskMap := List (String × Dict)

/-- The dict comprehension in `save_tasks` (line 182): records without an
`id` are skipped; a later record with the same id overwrites the earlier. -/
def buildTaskMap (existing : List Dict) : TaskMap :=
  existing.foldl
    (fun m t =>
      match alGet t "id" with
      | some i => alSet m i t
      | none => m)
    []

/-- One iteration of the merge loop in `save_tasks` (lines 185-196). -/
def mergeStep (m : TaskMap) (t : Dict) : TaskMap :=
  match alGet t "id" with
  | none => m
  | some i =>
      match alGet m i with
      | some old => alSet m i (dictUpdate old t)
      | none => alSet m i t

/-- The merged task map after `save_tasks` processed every incoming record. -/
def mergedTaskMap (existing incoming : List Dict) : TaskMap :=
  incoming.foldl mergeStep (buildTaskMap existing)

/-- `lambda x: x.get('start_time', '')`, the sort key in `save_tasks`. -/
def startTimeKey (t : Dict) : String :=
  (alGet t "start_time").getD ""

/-- The list `save_tasks` writes to the day file: merged records sorted by
`start_time` descending (`merged_tasks.sort(key=..., reverse=True)`). -/
def save_tasks_result (existing incoming : List Dict) : List Dict :=
  ((mergedTaskMap existing incoming).map Prod.snd).mergeSort
    (fun x y => decide (startTimeKey y ≤ startTimeKey x))

/-! `update_task_status` loads up to 100 records, walks them looking for
`task['id'] == task_id`, groups every record by the calendar day of its
`start_time`, applies `task.update(status_update)` to the matching record, and
calls `save_tasks(tasks_by_date[task_date], task_date)` only when the target
id was found.  Any `KeyError` (missing `id`/`start_time`) or parse failure is
swallowed by the surrounding `try`, and then nothing is written. -/

/-- Modelled from the source line
`datetime.fromisoformat(task['start_time']).strftime('%Y-%m-%d')`: Python
datetime parsing is abstracted as taking the 10-character `YYYY-MM-DD` prefix
of a well-formed ISO timestamp, with `none` for a string too short to be one
(`ValueError`).  Claims proved below do not depend on this choice. -/
def parseIsoDate (s : String) : Option String :=
  if 10 ≤ s.length then some (s.take 10) else none

/-- Per-day grouping dict `tasks_by_date`. -/
abbrev TaskGroups := List (String × List Dict)

/-- `tasks_by_date.setdefault(d, []).append(t)` as written out in the source. -/
def groupAppend (gs : TaskGroups) (d : String) (t : Dict) : TaskGroups :=
  alSet gs d ((alGet gs d).getD [] ++ [t])

/-- Loop state of `update_task_status`: the `task_found` flag, the day of the
matching record, and the per-day groups. -/
structure UpdateState where
  found : Bool
  taskDate : Option String
  groups : TaskGroups
  deriving Repr, DecidableEq

/-- One iteration of the loop in `update_task_status` (lines 223-245).
`none` models an uncaught `KeyError`/`ValueError` reaching the outer
`except`, after which nothing is saved. -/
def updStep (task_id : String) (upd : Dict) (st : UpdateState) (task : Dict) :
    Option UpdateState :=
  match alGet task "id" with
  | none => none
  | some i =>
      match alGet task "start_time" with
      | none => none
      | some stime =>
          match parseIsoDate stime with
          | none => none
          | some d =>
              if i = task_id then
                some { found := true, taskDate := some d,
                       groups := groupAppend st.groups d (dictUpdate task upd) }
              else
                some { st with groups := groupAppend st.groups d task }

/-- Run the grouping loop over the loaded records. -/
def runUpdate (task_id : String) (upd : Dict) :
    UpdateState → List Dict → Option UpdateState
  | st, [] => some st
  | st, t :: ts =>
      match updStep task_id upd st t with
      | none => none
      | some st' => runUpdate task_id upd st' ts

/-- The write `update_task_status` performs, as `some (day, records)` for the
`save_tasks(tasks_by_date[task_date], task_date)` call, or `none` when
nothing is written (target id not found, or an exception was swallowed). -/
def update_task_status_write (all_tasks : List Dict) (task_id : String)
    (upd : Dict) : Option (String × List Dict) :=
  match runUpdate task_id upd ⟨false, none, []⟩ all_tasks with
  | none => none
  | some st =>
      if st.found then
        match st.taskDate with
        | some d => some (d, (alGet st.groups d).getD [])
        | none => none
      else none

/-! ## Worker command line (`app/utils/video_utils.py`, `get_ffmpeg_command`)

With `proxy_config=None` the whole proxy block (lines 165-228) is skipped and
the command is built unconditionally from the remaining straight-line code
(lines 230-251).  `task_id` is only ever read inside the proxy block. -/

/-- `get_ffmpeg_command` specialised to `proxy_config=None` (no proxy
configuration); returns the argument list handed to `subprocess.Popen`. -/
def get_ffmpeg_command_noproxy (input_file output_rtmp : String)
    (transcode : Bool) (task_id : Option String) : List String :=
  ["ffmpeg", "-loglevel", "warning", "-hide_banner",
   "-stream_loop", "-1", "-re", "-i", input_file] ++
  (if transcode then
    ["-c:v", "libx264", "-preset", "veryfast", "-b:v", "1000k",
     "-maxrate", "1000k", "-bufsize", "2000k",
     "-c:a", "aac", "-b:a", "128k", "-f", "flv", output_rtmp]
  else
    ["-c", "copy", "-f", "flv", output_rtmp])

/-! ## Process Registry registration

`app/services/stream_service.py::start_stream` (lines 826-834) rejects a
start whose task id is already registered and leaves the registry untouched;
`app/api/tasks.py::start_stream_task` (lines 854-874) — the path every API
start actually goes through — assigns `active_processes[task_id] = {...}`
with no membership check. -/

/-- The duplicate check plus registration of `stream_service.start_stream`:
`(accepted, new registry)`. -/
def start_stream_register {α : Type} (reg : List (String × α)) (tid : String)
    (handle : α) : Bool × List (String × α) :=
  if (alGet reg tid).isSome then (false, reg) else (true, alSet reg tid handle)

/-- The registration performed by `api.tasks.start_stream_task`:
an unconditional `active_processes[task_id] = {...}`. -/
def start_stream_task_register {α : Type} (reg : List (String × α))
    (tid : String) (handle : α) : Bool × List (String × α) :=
  (true, alSet reg tid handle)

/-! ## Output Monitor termination handling (`stream_service.py::read_output`)

After the stderr stream closes and `process.wait()` returns, lines 223-404
decide what happens.  `task_info` is the registry entry snapshot taken when
the monitor started; both `start_stream` (line 911) and `start_stream_task`
(line 873) create that entry with `'need_reconnect': True`. -/

/-- The three possible effects of `read_output` after process exit. -/
inductive ExitOutcome where
  /-- Enter `monitor_and_reconnect` (line 275). -/
  | reconnectHandoff
  /-- `update_task_status(task_id, d)` with no reconnect attempt. -/
  | statusUpdate (d : Dict)
  /-- Task id no longer in `active_processes`: nothing happens. -/
  | noAction
  deriving Repr, DecidableEq

/-- The post-exit decision of `read_output` (lines 223-404).
`sawReconnectLine` is the local `need_reconnect` flag set by a matching
stderr line, `handleNeedReconnect` is `task_info.get('need_reconnect',
False)`, and `errorLines` / `stderrTail` feed the error detail branches. -/
def read_output_on_exit (inRegistry : Bool) (returncode : Int)
    (sawReconnectLine : Bool) (handleNeedReconnect : Bool)
    (stoppedByUser : Bool) (errorLines : List String) (stderrTail : String)
    (now : String) : ExitOutcome :=
  if !inRegistry then
    .noAction
  else if (returncode ≠ 0 ∧ sawReconnectLine) ∨ handleNeedReconnect then
    .reconnectHandoff
  else if returncode ≠ 0 then
    if errorLines ≠ [] then
      .statusUpdate
        [("status", "error"),
         ("message", "进程异常退出，返回码：" ++ toString returncode),
         ("error_message", String.intercalate "\n" errorLines),
         ("end_time", now)]
    else if stderrTail ≠ "" then
      .statusUpdate
        [("status", "error"),
         ("message", "进程异常退出，返回码：" ++ toString returncode),
         ("error_message", stderrTail),
         ("end_time", now)]
    else
      .statusUpdate
        [("status", "error"),
         ("message", "进程异常退出，返回码：" ++ toString returncode),
         ("error_message", "没有捕获到详细的错误输出"),
         ("end_time", now)]
  else
    .statusUpdate
      [("status", if stoppedByUser then "stopped" else "completed"),
       ("message", if stoppedByUser then "任务已手动停止" else "任务已完成"),
       ("end_time", now)]

/-! ## Reconnect Controller (`app/utils/video_utils.py::monitor_and_reconnect`)

The loop runs `local_attempt` from 1 while `local_attempt < max_retries`
fails to hold, sleeping `retry_delay` before every attempt after the first,
calling `reconnect_function()` and returning on the first attempt that yields
a process; on success `total_reconnects += 1`.  A process is represented by
its pid. -/

/-- The retry loop of `monitor_and_reconnect` (lines 449-490).  `reconnect`
maps the 1-based attempt index to the process the attempt yields (`none` for
a failed attempt, covering both a `None` return and a raised exception).
Returns `(process, total_reconnects, attempts made, sleeps taken)`. -/
def reconnectLoop (reconnect : Nat → Option Nat) :
    Nat → Nat → Nat → Option Nat × Nat × Nat × Nat
  | _attempt, 0, total => (none, total, 0, 0)
  | attempt, remaining + 1, total =>
      let a := attempt + 1
      let s := if 1 < a then 1 else 0
      match reconnect a with
      | some p => (some p, total + 1, 1, s)
      | none =>
          let r := reconnectLoop reconnect a remaining total
          (r.1, r.2.1, r.2.2.1 + 1, s + r.2.2.2)

/-- `monitor_and_reconnect`: if the handed-in process is still running it is
returned unchanged, otherwise the retry loop runs.  The process argument is
`some (pid, poll result)` or `none` (read_output always passes `None`). -/
def monitor_and_reconnect (process : Option (Nat × Option Int))
    (reconnect : Nat → Option Nat) (maxRetries total : Nat) :
    Option Nat × Nat × Nat × Nat :=
  match process with
  | some (pid, none) => (some pid, total, 0, 0)
  | _ => reconnectLoop reconnect 0 maxRetries total

/-- The immediate self-check inside the closure built by
`create_external_reconnect_function` (lines 284-415 of video_utils.py): a
missing video file or a spawn failure yields `None`; a spawned process that
has already exited (`poll() is not None`) is treated as a failed attempt. -/
def external_reconnect_result (fileExists : Bool)
    (spawned : Option (Nat × Option Int)) : Option Nat :=
  if !fileExists then none
  else
    match spawned with
    | none => none
    | some (_, some _) => none
    | some (pid, none) => some pid

/-- The in-memory registry entry fields touched by the reconnect handling in
`read_output` (lines 306-312). -/
structure RegistryEntry where
  pid : Nat
  restart_count : Nat
  total_reconnects : Nat
  retry_count : Nat
  network_status : String
  need_reconnect : Bool
  stopped_by_user : Bool
  deriving Repr, DecidableEq

/-- `read_output` lines 306-312 after a successful reconnect: swap in the new
process, reset `restart_count` to 1, store the updated `total_reconnects`,
mark the network recovered and reset `retry_count` to 0. -/
def read_output_apply_reconnect_success (h : RegistryEntry)
    (newPid updatedTotal : Nat) : RegistryEntry :=
  { h with pid := newPid, restart_count := 1,
           total_reconnects := updatedTotal,
           network_status := "已重连", retry_count := 0 }

/-- The Task Store update `read_output` issues after `monitor_and_reconnect`
returns: lines 315-320 on success, lines 338-343 on exhaustion. -/
def read_output_after_reconnect (monResult : Option Nat)
    (updatedTotal : Nat) (now : String) : Dict :=
  match monResult with
  | some _ =>
      [("status", "running"), ("message", "任务已通过机制重连"),
       ("restart_count", toString 1),
       ("total_reconnects", toString updatedTotal)]
  | none =>
      [("status", "error"), ("message", "重连失败"),
       ("error_message", "网络问题导致流媒体中断，多次重连尝试失败"),
       ("end_time", now)]

/-! ## Stop path (`stream_service.py::stop_stream`, `api/tasks.py::stop_task`)

`stop_stream` returns `False` for an unknown id (after writing a `stopped`
record unless it is an auto-stop), removes the registry entry and returns
`True` when the process already exited, and otherwise tries the graceful
`q` shutdown with a kill fallback.  `stop_task` ignores that boolean, always
writes `status='stopped'` and always answers `{"status": "success"}`. -/

/-- How the OS process of a registry entry reacts to the stop sequence. -/
structure StopBehavior where
  /-- `process.poll()` at stop time (`some code` = already exited). -/
  pollResult : Option Int
  /-- The graceful `q`-write / wait block raises an exception. -/
  gracefulExc : Bool
  /-- `process.kill()` in the `except` branch raises too. -/
  killExc : Bool
  deriving Repr, DecidableEq

/-- `stop_stream(task_id, is_auto_stop)` (lines 465-535):
`(return value, new registry, Task Store update it wrote itself)`. -/
def stop_stream (reg : List (String × StopBehavior)) (tid : String)
    (isAutoStop : Bool) (now : String) :
    Bool × List (String × StopBehavior) × Option Dict :=
  match alGet reg tid with
  | none =>
      (false, reg,
        if isAutoStop then none
        else some [("status", "stopped"), ("end_time", now),
                   ("message", "任务已手动停止（任务可能已结束或不存在）")])
  | some b =>
      if b.pollResult.isSome then (true, alRemove reg tid, none)
      else if !b.gracefulExc then (true, alRemove reg tid, none)
      else if !b.killExc then (true, alRemove reg tid, none)
      else (false, reg, none)

/-- `api.tasks.stop_task` (lines 431-454): `(HTTP payload status, Task Store
update, new registry)`.  Both the normal and the exception path answer
`"success"` and write `status='stopped'`. -/
def stop_task (reg : List (String × StopBehavior)) (tid : String)
    (now : String) : String × Dict × List (String × StopBehavior) :=
  let r := stop_stream reg tid false now
  ("success",
   [("status", "stopped"), ("end_time", now), ("message", "任务已手动停止")],
   r.2.1)

/-! ## Network Quality Monitor

Two same-named functions exist.  `stream_service.py::monitor_all_rtmp_connections`
(lines 617-646) resets the retry bookkeeping when a task's network status
moves from `disconnected`/`error`/`timeout` back to `connected`.
`monitor_service.py::monitor_all_rtmp_connections` (lines 17-139) only writes
the new quality string onto each task.  `app/main.py` line 22 imports the
latter and line 294-300 schedules it every 30 s. -/

/-- Per-task monitor state touched by the two monitors. -/
structure MonHandle where
  network_status : String
  retry_count : Nat
  network_warning : Bool
  last_retry_time : Option String
  current_delay : Option Nat
  last_error_type : Option String
  deriving Repr, DecidableEq

/-- Per-task effect of `stream_service.monitor_all_rtmp_connections`
(lines 620-644): store the probed status, and on a transition from
`disconnected`/`error`/`timeout` to `connected` reset every retry/backoff
field. -/
def stream_service_monitor_step (h : MonHandle) (current : String) :
    MonHandle :=
  let h' := { h with network_status := current }
  if (h.network_status = "disconnected" ∨ h.network_status = "error" ∨
      h.network_status = "timeout") ∧ current = "connected" then
    { h' with retry_count := 0, network_warning := false,
              last_retry_time := none, current_delay := none,
              last_error_type := none }
  else h'

/-- Per-task effect of `monitor_service.monitor_all_rtmp_connections`
(lines 130-134): only `network_status` is written. -/
def monitor_service_monitor_step (h : MonHandle) (current : String) :
    MonHandle :=
  { h with network_status := current }

/-- The monitor `app/main.py` actually schedules: line 22 binds
`monitor_all_rtmp_connections` to the `monitor_service` version. -/
def scheduled_monitor_step : MonHandle → String → MonHandle :=
  monitor_service_monitor_step

/-! ## Log retention (`app/core/logging.py::cleanup_old_logs`)

The job compares `datetime.fromtimestamp(st_mtime)` — a timezone-naive
value — with `datetime.now(beijing_tz) - timedelta(days=7)` — a
timezone-aware value.  In Python 3 that comparison raises `TypeError`, which
the per-file `except` swallows, so the file survives. -/

/-- A Python `datetime`: naive or timezone-aware, over epoch seconds. -/
inductive PyDatetime where
  | naive (t : Int)
  | aware (t : Int)
  deriving Repr, DecidableEq

/-- Python `<` on datetimes: comparing a naive with an aware value raises
`TypeError`. -/
def pyLt : PyDatetime → PyDatetime → Except String Bool
  | .naive a, .naive b => .ok (decide (a < b))
  | .aware a, .aware b => .ok (decide (a < b))
  | _, _ => .error "TypeError: cannot compare offset-naive and offset-aware datetimes"

/-- A diagnostic log file matched by the `ffmpeg_task_*.log` glob. -/
structure LogFile where
  name : String
  mtime : Int
  deriving Repr, DecidableEq

/-- The per-file loop body of `cleanup_old_logs` (lines 53-62): build the
naive `mod_time`, compare with the threshold, unlink on `True`; an exception
from the comparison is caught and the file is kept. -/
def cleanup_scan (threshold : PyDatetime) : List LogFile → List LogFile × Nat
  | [] => ([], 0)
  | f :: fs =>
      let r := cleanup_scan threshold fs
      match pyLt (PyDatetime.naive f.mtime) threshold with
      | .ok true => (r.1, r.2 + 1)
      | .ok false => (f :: r.1, r.2)
      | .error _ => (f :: r.1, r.2)

/-- `cleanup_old_logs` (lines 45-70) over the globbed files: returns the
surviving files and the deletion count.  `mod_time` is built naive
(`datetime.fromtimestamp`), the threshold aware
(`datetime.now(beijing_tz) - timedelta(days=7)`). -/
def cleanup_old_logs (now : Int) (files : List LogFile) : List LogFile × Nat :=
  cleanup_scan (PyDatetime.aware (now - 7 * 86400)) files

/-! ## Association list lemmas -/

theorem alGet_alSet_self {β : Type} (l : List (String × β)) (k : String)
    (v : β) : alGet (alSet l k v) k = some v := by
  induction l with
  | nil => simp [alSet, alGet]
  | cons p rest ih =>
      obtain ⟨k', v'⟩ := p
      by_cases h : k' = k
      · simp [alSet, alGet, h]
      · simp [alSet, alGet, h, ih]

theorem alGet_alSet_ne {β : Type} (l : List (String × β)) (k k2 : String)
    (v : β) (h : k2 ≠ k) : alGet (alSet l k v) k2 = alGet l k2 := by
  induction l with
  | nil => simp [alSet, alGet, Ne.symm h]
  | cons p rest ih =>
      obtain ⟨k', v'⟩ := p
      by_cases hk : k' = k
      · subst hk
        simp [alSet, alGet, Ne.symm h]
      · by_cases hk2 : k' = k2
        · simp [alSet, alGet, hk, hk2, h]
        · simp [alSet, alGet, hk, hk2, ih]

theorem alGet_eq_none_of_not_mem {β : Type} (l : List (String × β))
    (k : String) (h : k ∉ l.map Prod.fst) : alGet l k = none := by
  induction l with
  | nil => rfl
  | cons p rest ih =>
      obtain ⟨k', v'⟩ := p
      simp only [List.map_cons, List.mem_cons] at h
      push_neg at h
      simp [alGet, Ne.symm h.1, ih h.2]

/-- `d.update(u)` seen through `alGet`: a key of `u` gets `u`'s value, any
other key keeps `d`'s value (for a duplicate-free `u`, which CPython dicts
guarantee). -/
theorem alGet_dictUpdate (d u : Dict) (k : String)
    (hu : (u.map Prod.fst).Nodup) :
    alGet (dictUpdate d u) k =
      match alGet u k with
      | some v => some v
      | none => alGet d k := by
  induction u generalizing d with
  | nil => simp [dictUpdate, alGet]
  | cons p rest ih =>
      obtain ⟨k0, v0⟩ := p
      simp only [List.map_cons, List.nodup_cons] at hu
      have hstep : dictUpdate d ((k0, v0) :: rest) =
          dictUpdate (alSet d k0 v0) rest := rfl
      rw [hstep, ih _ hu.2]
      by_cases hkk : k0 = k
      · subst hkk
        rw [alGet_eq_none_of_not_mem rest k0 hu.1]
        simp [alGet, alGet_alSet_self]
      · cases hget : alGet rest k with
        | some v => simp [alGet, hkk, hget]
        | none => simp [alGet, hkk, hget, alGet_alSet_ne d k0 k v0 (fun hh => hkk hh.symm)]

theorem alGet_alRemove_self {β : Type} (l : List (String × β)) (k : String)
    (h : (l.map Prod.fst).Nodup) : alGet (alRemove l k) k = none := by
  induction l with
  | nil => rfl
  | cons p rest ih =>
      obtain ⟨k', v'⟩ := p
      simp only [List.map_cons, List.nodup_cons] at h
      by_cases hk : k' = k
      · subst hk
        simpa [alRemove] using alGet_eq_none_of_not_mem rest k' h.1
      · simp [alRemove, alGet, hk, ih h.2]

/-! ## Reconnect loop lemmas -/

/-- When every attempt fails, the loop performs one attempt per remaining
budget unit, sleeping before every attempt except a first attempt. -/
theorem reconnectLoop_all_fail (reconnect : Nat → Option Nat)
    (h : ∀ a, reconnect a = none) :
    ∀ remaining attempt total, reconnectLoop reconnect attempt remaining total =
      (none, total, remaining, remaining - (if attempt = 0 then 1 else 0)) := by
  intro remaining
  induction remaining with
  | zero => intro attempt total; simp [reconnectLoop]
  | succ n ih =>
      intro attempt total
      rw [reconnectLoop, h (attempt + 1), ih (attempt + 1) total]
      by_cases ha : attempt = 0
      · subst ha
        simp
      · have h1 : 1 < attempt + 1 := by omega
        have h2 : ¬ attempt + 1 = 0 := by omega
        simp only [ha, h1, h2, if_true, if_false, if_pos, if_neg, not_false_iff]
        simp [ha, h1, h2]
        omega

/-- When the first successful attempt is attempt `k` and it lies within the
budget, the loop returns that process and bumps `total_reconnects` once. -/
theorem reconnectLoop_first_success (reconnect : Nat → Option Nat) (k p : Nat)
    (hsucc : reconnect k = some p) :
    ∀ remaining attempt total, attempt < k → k ≤ attempt + remaining →
      (∀ j, j < k → attempt < j → reconnect j = none) →
      (reconnectLoop reconnect attempt remaining total).1 = some p ∧
      (reconnectLoop reconnect attempt remaining total).2.1 = total + 1 := by
  intro remaining
  induction remaining with
  | zero => intro attempt total h1 h2 _; omega
  | succ n ih =>
      intro attempt total h1 h2 hfail
      by_cases hk : attempt + 1 = k
      · rw [reconnectLoop, hk, hsucc]
        exact ⟨rfl, rfl⟩
      · have hlt : attempt + 1 < k := by omega
        rw [reconnectLoop, hfail (attempt + 1) hlt (by omega)]
        have := ih (attempt + 1) total hlt (by omega)
          (fun j hj hj2 => hfail j hj (by omega))
        exact ⟨this.1, this.2⟩

/-! ## Claim theorems -/

/-- C1: the claim says a start request whose task id already has a registry
entry is rejected with the entry left unchanged.  The live start path
(`api.tasks.start_stream_task`) instead registers unconditionally: with
handle `0` registered under `"t1"`, a second start with handle `1` is
accepted and replaces the entry, while the duplicate check the spec
describes exists only in the never-invoked `stream_service.start_stream`. -/
theorem start_stream_task_overwrites_existing_entry :
    start_stream_task_register [("t1", (0 : Nat))] "t1" 1 = (true, [("t1", 1)]) ∧
    start_stream_register [("t1", (0 : Nat))] "t1" 1 = (false, [("t1", 0)]) := by
  decide

/-- C2 counterexample: a monitored process whose stderr closed with exit code
0, whose registry entry carries the `need_reconnect = True` flag that both
start paths set, and which was not stopped by the user, is handed to the
reconnect controller — no `completed` (or any other) status is recorded by
`read_output`. -/
theorem read_output_zero_exit_counterexample :
    read_output_on_exit true 0 false true false [] "" "2026-01-01T00:00:00" =
      .reconnectHandoff ∧
    ∀ d : Dict, read_output_on_exit true 0 false true false [] ""
      "2026-01-01T00:00:00" ≠ .statusUpdate d := by
  refine ⟨rfl, ?_⟩
  intro d h
  simp [read_output_on_exit] at h

/-- C2 amended: on exit code 0 `read_output` records `completed` (`stopped`
when the user-stop flag was set beforehand) and does not enter the reconnect
controller, provided the registry entry's pre-set `need_reconnect` flag is
clear; when that flag is set — as both start paths set it — the task is
handed to the reconnect controller even on a zero exit code. -/
theorem read_output_zero_exit_amended (sawR stopped : Bool)
    (el : List String) (st now : String) :
    read_output_on_exit true 0 sawR false stopped el st now =
      .statusUpdate
        [("status", if stopped then "stopped" else "completed"),
         ("message", if stopped then "任务已手动停止" else "任务已完成"),
         ("end_time", now)] ∧
    read_output_on_exit true 0 sawR true stopped el st now =
      .reconnectHandoff := by
  constructor <;> simp [read_output_on_exit]

/-- C3: with a reconnect function that never yields a live process,
`monitor_and_reconnect` (entered with `process=None` as `read_output` does)
makes exactly `max_retries` spawn attempts with `max_retries - 1`
fixed-delay waits between them, returns no process, and `read_output` then
writes the terminal `error` status with the reconnect-exhaustion message
`重连失败`. -/
theorem reconnect_exhaustion (reconnect : Nat → Option Nat)
    (maxRetries total : Nat) (now : String)
    (h : ∀ a, reconnect a = none) :
    monitor_and_reconnect none reconnect maxRetries total =
      (none, total, maxRetries, maxRetries - 1) ∧
    alGet (read_output_after_reconnect
      (monitor_and_reconnect none reconnect maxRetries total).1 total now)
      "status" = some "error" ∧
    alGet (read_output_after_reconnect
      (monitor_and_reconnect none reconnect maxRetries total).1 total now)
      "message" = some "重连失败" := by
  have hm : monitor_and_reconnect none reconnect maxRetries total =
      (none, total, maxRetries, maxRetries - 1) := by
    have hm0 : monitor_and_reconnect none reconnect maxRetries total =
        reconnectLoop reconnect 0 maxRetries total := rfl
    rw [hm0, reconnectLoop_all_fail reconnect h maxRetries 0 total]
    simp
  refine ⟨hm, ?_, ?_⟩ <;> rw [hm] <;> rfl

/-- C3 witness: three attempts with an always-failing reconnect function. -/
theorem reconnect_exhaustion_witness :
    (∀ a : Nat, (fun _ : Nat => (none : Option Nat)) a = none) ∧
    (monitor_and_reconnect none (fun _ : Nat => none) 3 5 = (none, 5, 3, 2) ∧
     alGet (read_output_after_reconnect
       (monitor_and_reconnect none (fun _ : Nat => none) 3 5).1 5 "T")
       "status" = some "error" ∧
     alGet (read_output_after_reconnect
       (monitor_and_reconnect none (fun _ : Nat => none) 3 5).1 5 "T")
       "message" = some "重连失败") :=
  ⟨fun _ => rfl, reconnect_exhaustion (fun _ => none) 3 5 "T" (fun _ => rfl)⟩

/-- C4: when the reconnect attempt sequence first succeeds at some attempt
`k` within the budget (every earlier attempt failing), the controller
returns that process with `total_reconnects` incremented by exactly 1, and
`read_output`'s success handling then resets `retry_count` to 0, sets
`restart_count` to 1, stores the incremented `total_reconnects`, and writes
the Task Store status back to `running`. -/
theorem reconnect_success_resets_counters (reconnect : Nat → Option Nat)
    (maxRetries total k p : Nat) (h : RegistryEntry) (now : String)
    (hk1 : 1 ≤ k) (hk2 : k ≤ maxRetries) (hsucc : reconnect k = some p)
    (hfail : ∀ j, j < k → 1 ≤ j → reconnect j = none) :
    (monitor_and_reconnect none reconnect maxRetries total).1 = some p ∧
    (monitor_and_reconnect none reconnect maxRetries total).2.1 = total + 1 ∧
    (read_output_apply_reconnect_success h p
      (monitor_and_reconnect none reconnect maxRetries total).2.1).retry_count
      = 0 ∧
    (read_output_apply_reconnect_success h p
      (monitor_and_reconnect none reconnect maxRetries total).2.1).restart_count
      = 1 ∧
    (read_output_apply_reconnect_success h p
      (monitor_and_reconnect none reconnect maxRetries total).2.1).total_reconnects
      = total + 1 ∧
    alGet (read_output_after_reconnect
      (monitor_and_reconnect none reconnect maxRetries total).1
      (monitor_and_reconnect none reconnect maxRetries total).2.1 now)
      "status" = some "running" := by
  have hloop := reconnectLoop_first_success reconnect k p hsucc maxRetries 0
    total (by omega) (by omega) (fun j hj hj2 => hfail j hj (by omega))
  have hm0 : monitor_and_reconnect none reconnect maxRetries total =
      reconnectLoop reconnect 0 maxRetries total := rfl
  have h1 : (monitor_and_reconnect none reconnect maxRetries total).1 = some p := by
    rw [hm0]; exact hloop.1
  have h2 : (monitor_and_reconnect none reconnect maxRetries total).2.1 = total + 1 := by
    rw [hm0]; exact hloop.2
  refine ⟨h1, h2, ?_, rfl, ?_, ?_⟩
  · rfl
  · simp [read_output_apply_reconnect_success, h2]
  · rw [h1]; rfl

/-- C4 witness: the second attempt spawns pid 77 which survives the
immediate self-check; the first attempt spawns a process that exits at
once and is treated as failed. -/
theorem reconnect_success_resets_counters_witness :
    (1 ≤ 2 ∧ 2 ≤ 5 ∧
     (fun a : Nat => external_reconnect_result true
       (if a = 2 then some (77, none) else some (99, some 1))) 2 = some 77 ∧
     (∀ j, j < 2 → 1 ≤ j →
       (fun a : Nat => external_reconnect_result true
         (if a = 2 then some (77, none) else some (99, some 1))) j = none)) ∧
    ((monitor_and_reconnect none
       (fun a : Nat => external_reconnect_result true
         (if a = 2 then some (77, none) else some (99, some 1))) 5 4).1
       = some 77 ∧
     (monitor_and_reconnect none
       (fun a : Nat => external_reconnect_result true
         (if a = 2 then some (77, none) else some (99, some 1))) 5 4).2.1
       = 4 + 1 ∧
     (read_output_apply_reconnect_success ⟨10, 3, 4, 7, "x", true, false⟩ 77
       (monitor_and_reconnect none
         (fun a : Nat => external_reconnect_result true
           (if a = 2 then some (77, none) else some (99, some 1))) 5 4).2.1).retry_count
       = 0 ∧
     (read_output_apply_reconnect_success ⟨10, 3, 4, 7, "x", true, false⟩ 77
       (monitor_and_reconnect none
         (fun a : Nat => external_reconnect_result true
           (if a = 2 then some (77, none) else some (99, some 1))) 5 4).2.1).restart_count
       = 1 ∧
     (read_output_apply_reconnect_success ⟨10, 3, 4, 7, "x", true, false⟩ 77
       (monitor_and_reconnect none
         (fun a : Nat => external_reconnect_result true
           (if a = 2 then some (77, none) else some (99, some 1))) 5 4).2.1).total_reconnects
       = 4 + 1 ∧
     alGet (read_output_after_reconnect
       (monitor_and_reconnect none
         (fun a : Nat => external_reconnect_result true
           (if a = 2 then some (77, none) else some (99, some 1))) 5 4).1
       (monitor_and_reconnect none
         (fun a : Nat => external_reconnect_result true
           (if a = 2 then some (77, none) else some (99, some 1))) 5 4).2.1 "T")
       "status" = some "running") :=
  ⟨⟨by decide, by decide, by decide, by decide⟩,
   reconnect_success_resets_counters
     (fun a : Nat => external_reconnect_result true
       (if a = 2 then some (77, none) else some (99, some 1)))
     5 4 2 77 ⟨10, 3, 4, 7, "x", true, false⟩ "T"
     (by decide) (by decide) (by decide) (by decide)⟩

/-- C5: stopping is idempotent — a stop request (`api.tasks.stop_task`) for a
task id that is unknown to the registry, or whose process has already
terminated, answers `"success"`, writes the terminal status `stopped` to the
Task Store, and leaves no registry entry for the id; it never reports an
error. -/
theorem stop_task_idempotent (reg : List (String × StopBehavior))
    (tid now : String) (hnd : (reg.map Prod.fst).Nodup)
    (h : alGet reg tid = none ∨
         ∃ b, alGet reg tid = some b ∧ b.pollResult.isSome) :
    (stop_task reg tid now).1 = "success" ∧
    alGet (stop_task reg tid now).2.1 "status" = some "stopped" ∧
    alGet (stop_task reg tid now).2.2 tid = none := by
  refine ⟨rfl, rfl, ?_⟩
  rcases h with h | ⟨b, hb, hpoll⟩
  · simp [stop_task, stop_stream, h]
  · simp [stop_task, stop_stream, hb, hpoll, alGet_alRemove_self reg tid hnd]

/-- C5 witness: stopping a task id absent from an empty registry. -/
theorem stop_task_idempotent_witness :
    (([] : List (String × StopBehavior)).map Prod.fst).Nodup ∧
    (alGet ([] : List (String × StopBehavior)) "t9" = none ∨
      ∃ b, alGet ([] : List (String × StopBehavior)) "t9" = some b ∧
        b.pollResult.isSome) ∧
    ((stop_task ([] : List (String × StopBehavior)) "t9" "T").1 = "success" ∧
     alGet (stop_task ([] : List (String × StopBehavior)) "t9" "T").2.1
       "status" = some "stopped" ∧
     alGet (stop_task ([] : List (String × StopBehavior)) "t9" "T").2.2 "t9"
       = none) :=
  ⟨List.nodup_nil, Or.inl rfl,
   stop_task_idempotent [] "t9" "T" List.nodup_nil (Or.inl rfl)⟩

/-- C7: the network monitor that `app/main.py` actually schedules
(`monitor_service.monitor_all_rtmp_connections`) does not reset the retry
bookkeeping on a degraded-to-reachable transition: with `retry_count = 3`
and a stored last-retry timestamp, observing recovery leaves both untouched,
whereas the never-scheduled `stream_service` monitor of the same name resets
them as the claim describes. -/
theorem scheduled_monitor_keeps_retry_state :
    scheduled_monitor_step
      ⟨"disconnected", 3, true, some "2026-01-01T00:00:00", some 5, some "timeout"⟩
      "connected" =
      ⟨"connected", 3, true, some "2026-01-01T00:00:00", some 5, some "timeout"⟩ ∧
    stream_service_monitor_step
      ⟨"disconnected", 3, true, some "2026-01-01T00:00:00", some 5, some "timeout"⟩
      "connected" =
      ⟨"connected", 0, false, none, none, none⟩ := by
  constructor <;> rfl

/-- C8: the daily retention job deletes nothing at all: for every run time
and every set of globbed `ffmpeg_task_*.log` files, `cleanup_old_logs`
keeps every file (including ones modified more than 7 days ago) and counts
zero deletions, because comparing the naive `mod_time` with the aware
threshold raises a `TypeError` that the per-file handler swallows. -/
theorem cleanup_old_logs_deletes_nothing (now : Int) (files : List LogFile) :
    cleanup_old_logs now files = (files, 0) := by
  rw [cleanup_old_logs]
  generalize now - 7 * 86400 = t
  induction files with
  | nil => rfl
  | cons f fs ih => simp [cleanup_scan, pyLt, ih]

/-- C9: with no proxy configuration the worker command line is a
deterministic function of the task fields: it always carries the
`-stream_loop -1` and `-re` flags, and equals the plain `-c copy -f flv`
command when transcoding is off and the libx264/aac transcode command when
it is on — identical fields give the identical command. -/
theorem ffmpeg_command_reproducible (i o : String) (tid : Option String) :
    (∀ b : Bool,
      (∃ s t, s ++ ["-stream_loop", "-1"] ++ t =
        get_ffmpeg_command_noproxy i o b tid) ∧
      "-re" ∈ get_ffmpeg_command_noproxy i o b tid) ∧
    get_ffmpeg_command_noproxy i o false tid =
      ["ffmpeg", "-loglevel", "warning", "-hide_banner", "-stream_loop",
       "-1", "-re", "-i", i, "-c", "copy", "-f", "flv", o] ∧
    get_ffmpeg_command_noproxy i o true tid =
      ["ffmpeg", "-loglevel", "warning", "-hide_banner", "-stream_loop",
       "-1", "-re", "-i", i, "-c:v", "libx264", "-preset", "veryfast",
       "-b:v", "1000k", "-maxrate", "1000k", "-bufsize", "2000k",
       "-c:a", "aac", "-b:a", "128k", "-f", "flv", o] := by
  refine ⟨?_, rfl, rfl⟩
  intro b
  constructor
  · exact ⟨["ffmpeg", "-loglevel", "warning", "-hide_banner"],
      ["-re", "-i", i] ++
        (if b then
          ["-c:v", "libx264", "-preset", "veryfast", "-b:v", "1000k",
           "-maxrate", "1000k", "-bufsize", "2000k",
           "-c:a", "aac", "-b:a", "128k", "-f", "flv", o]
        else ["-c", "copy", "-f", "flv", o]),
      by simp [get_ffmpeg_command_noproxy]⟩
  · simp [get_ffmpeg_command_noproxy]

/-- C6: `save_tasks` keeps exactly one record per id.  Writing a day file
holding records `A` and `B` (distinct ids) and then saving an update `Aup`
with `A`'s id produces, up to the final sort, exactly `dict.update(A, Aup)`
and an unchanged `B`; fields of `A` not named in `Aup` are preserved and no
second record with `A`'s id appears. -/
theorem save_tasks_merge_upsert (A B Aup : Dict) (a b : String)
    (hA : alGet A "id" = some a) (hB : alGet B "id" = some b)
    (hAup : alGet Aup "id" = some a) (hab : a ≠ b)
    (hnd : (Aup.map Prod.fst).Nodup) :
    (save_tasks_result [A, B] [Aup]).Perm [dictUpdate A Aup, B] ∧
    (∀ k, alGet (dictUpdate A Aup) k =
      match alGet Aup k with
      | some v => some v
      | none => alGet A k) ∧
    (save_tasks_result [A, B] [Aup]).countP
      (fun t => decide (alGet t "id" = some a)) = 1 := by
  have hmap : (mergedTaskMap [A, B] [Aup]).map Prod.snd =
      [dictUpdate A Aup, B] := by
    unfold mergedTaskMap buildTaskMap mergeStep
    simp [hA, hB, hAup, alSet, alGet, hab, Ne.symm hab]
  have hperm : (save_tasks_result [A, B] [Aup]).Perm [dictUpdate A Aup, B] := by
    unfold save_tasks_result
    rw [hmap]
    exact List.mergeSort_perm _ _
  have hid : alGet (dictUpdate A Aup) "id" = some a := by
    rw [alGet_dictUpdate A Aup "id" hnd, hAup]
  refine ⟨hperm, fun k => alGet_dictUpdate A Aup k hnd, ?_⟩
  rw [hperm.countP_eq]
  simp [List.countP_cons, hid, hB, Ne.symm hab]

/-- C6 witness: `A` and `B` on disk, then an update to `A`'s status. -/
theorem save_tasks_merge_upsert_witness :
    (alGet [("id", "a"), ("status", "running"),
      ("start_time", "2026-01-01T08:00:00")] "id" = some "a" ∧
     alGet [("id", "b"), ("start_time", "2026-01-02T08:00:00")] "id"
       = some "b" ∧
     alGet [("id", "a"), ("status", "stopped")] "id" = some "a" ∧
     "a" ≠ "b" ∧
     (([("id", "a"), ("status", "stopped")] : Dict).map Prod.fst).Nodup) ∧
    ((save_tasks_result
        [[("id", "a"), ("status", "running"),
          ("start_time", "2026-01-01T08:00:00")],
         [("id", "b"), ("start_time", "2026-01-02T08:00:00")]]
        [[("id", "a"), ("status", "stopped")]]).Perm
      [dictUpdate [("id", "a"), ("status", "running"),
         ("start_time", "2026-01-01T08:00:00")]
         [("id", "a"), ("status", "stopped")],
       [("id", "b"), ("start_time", "2026-01-02T08:00:00")]] ∧
     (∀ k, alGet (dictUpdate [("id", "a"), ("status", "running"),
         ("start_time", "2026-01-01T08:00:00")]
         [("id", "a"), ("status", "stopped")]) k =
       match alGet [("id", "a"), ("status", "stopped")] k with
       | some v => some v
       | none => alGet [("id", "a"), ("status", "running"),
           ("start_time", "2026-01-01T08:00:00")] k) ∧
     (save_tasks_result
        [[("id", "a"), ("status", "running"),
          ("start_time", "2026-01-01T08:00:00")],
         [("id", "b"), ("start_time", "2026-01-02T08:00:00")]]
        [[("id", "a"), ("status", "stopped")]]).countP
       (fun t => decide (alGet t "id" = some "a")) = 1) :=
  ⟨⟨by decide, by decide, by decide, by decide, by decide⟩,
   save_tasks_merge_upsert _ _ _ "a" "b"
     (by decide) (by decide) (by decide) (by decide) (by decide)⟩

/-- The grouping loop of `update_task_status` cannot set `task_found` when
no loaded record carries the target id; it either dies on a swallowed
exception or finishes with the flag still clear. -/
theorem runUpdate_preserves_not_found (task_id : String) (upd : Dict) :
    ∀ (ts : List Dict) (st : UpdateState), st.found = false →
      (∀ t ∈ ts, alGet t "id" ≠ some task_id) →
      runUpdate task_id upd st ts = none ∨
      ∃ st', runUpdate task_id upd st ts = some st' ∧ st'.found = false := by
  intro ts
  induction ts with
  | nil => intro st hst _; exact Or.inr ⟨st, rfl, hst⟩
  | cons t ts ih =>
      intro st hst h
      have hid := h t (List.mem_cons_self t ts)
      cases hgid : alGet t "id" with
      | none => exact Or.inl (by simp [runUpdate, updStep, hgid])
      | some i =>
          cases hgst : alGet t "start_time" with
          | none => exact Or.inl (by simp [runUpdate, updStep, hgid, hgst])
          | some stime =>
              cases hpd : parseIsoDate stime with
              | none => exact Or.inl (by simp [runUpdate, updStep, hgid, hgst, hpd])
              | some d =>
                  have hne : i ≠ task_id := fun he => hid (he ▸ hgid)
                  have hstep : runUpdate task_id upd st (t :: ts) =
                      runUpdate task_id upd
                        { st with groups := groupAppend st.groups d t } ts := by
                    simp [runUpdate, updStep, hgid, hgst, hpd, hne]
                  rw [hstep]
                  exact ih { st with groups := groupAppend st.groups d t } hst
                    (fun t' ht' => h t' (List.mem_cons_of_mem _ ht'))

/-- C10: when no record among the loaded Task Store records has the target
id, `update_task_status` writes nothing: no `save_tasks` call happens, so no
day file is created or modified. -/
theorem update_task_status_unknown_id_no_write (all_tasks : List Dict)
    (task_id : String) (upd : Dict)
    (h : ∀ t ∈ all_tasks, alGet t "id" ≠ some task_id) :
    update_task_status_write all_tasks task_id upd = none := by
  rcases runUpdate_preserves_not_found task_id upd all_tasks
    ⟨false, none, []⟩ rfl h with hn | ⟨st', hst', hf⟩
  · simp [update_task_status_write, hn]
  · simp [update_task_status_write, hst', hf]

/-- C10 witness: updating an id absent from the single loaded record. -/
theorem update_task_status_unknown_id_no_write_witness :
    (∀ t ∈ [[("id", "x"), ("start_time", "2026-01-01T08:00:00")]],
      alGet t "id" ≠ some "y") ∧
    update_task_status_write
      [[("id", "x"), ("start_time", "2026-01-01T08:00:00")]] "y"
      [("status", "stopped")] = none :=
  ⟨by decide,
   update_task_status_unknown_id_no_write _ "y" [("status", "stopped")]
     (by decide)⟩

end YTLive
